import Mathlib

/-!
Verification of the Orbital frontend chat/session layer.

Shallow embedding of:
- the data model of `src/web/app/_lib/api.ts` (Message, ChatResponse, ToolCall, ...);
- the workspace store operations of the Zustand store file (`loadSession`,
  `sendMessage`, `buildVizTabs`, `findLastQueryResult`);
- `groupMessages` from `src/web/app/_components/ChatPanel.tsx`;
- the HTTP chat client `sendMessage` of `api.ts` (here `apiSendMessage`);
- spec-modelled executors `create_chart` / `create_graph` (their backend
  implementation is not part of the provided sources).

JavaScript semantics are embedded explicitly: optional / possibly-`undefined`
fields become `Option`, `x || d` on strings becomes `jsOrString` (the empty
string is falsy), asynchronous success/failure becomes an `Except` outcome
parameter, and each call of `Date.now()` becomes a `Nat` parameter.
-/

namespace Orbital

/-- Message role (`"user" | "assistant" | "system"` in `api.ts`). -/
inductive Role
  | user
  | assistant
  | system
deriving DecidableEq, Repr

/-- A visualization spec (`ChartSpec | GraphSpec` in `api.ts`).  Charts and
graphs are discriminated by the `type` field: graphs have `type = "network"`.
The remaining payload (data rows, axes, nodes, edges, layout) is opaque to all
functions verified here, so it is collapsed into one field. -/
structure VizSpec where
  vtype : String
  title : String
  payload : String
deriving DecidableEq, Repr

/-- `ToolCall` from `api.ts`: one tool invocation record. -/
structure ToolCall where
  tool : String
  input : String
  durationMs : Option Nat
  error : Option String
  output : Option String
deriving DecidableEq, Repr

/-- `QueryResult` from `api.ts`.  Rows are opaque to the verified functions. -/
structure QueryResult where
  data : List String
  columns : List String
  row_count : Nat
deriving DecidableEq, Repr

/-- `TokenUsage` from `api.ts`. -/
structure TokenUsage where
  inputTokens : Nat
  contextLimit : Nat
deriving DecidableEq, Repr

/-- `Message` from `api.ts`.  Optional fields are `Option`s (`undefined` =
`none`). -/
structure Message where
  id : String
  role : Role
  content : String
  timestamp : String
  charts : Option (List VizSpec) := none
  graphs : Option (List VizSpec) := none
  toolCalls : Option (List ToolCall) := none
  queryResults : Option (List QueryResult) := none
  isError : Option Bool := none
  tokenUsage : Option TokenUsage := none
deriving DecidableEq, Repr

/-- `Session` from `api.ts`, restricted to the fields the verified store
operations read or write. -/
structure Session where
  id : String
  name : String
  messages : List Message
deriving DecidableEq, Repr

/-- `ChatResponse` from `api.ts`. -/
structure ChatResponse where
  messageId : String
  response : String
  visualizations : List VizSpec
  model : Option String
  toolCalls : List ToolCall
  queryResults : Option (List QueryResult)
  tokenUsage : Option TokenUsage
deriving DecidableEq, Repr

/-- `ChartTab` from the workspace store (`vizType` is `"chart" | "graph"`). -/
structure ChartTab where
  id : String
  title : String
  vizType : String
  spec : VizSpec
deriving DecidableEq, Repr

/-- The `currentQueryResult` shape `{ data, columns }` of the store. -/
structure QueryView where
  data : List String
  columns : List String
deriving DecidableEq, Repr

/-- `DataView` of the workspace store. -/
inductive DataView
  | preview
  | query
deriving DecidableEq, Repr

/-- The workspace store state, restricted to the fields touched by
`loadSession` / `sendMessage`. -/
structure WorkspaceState where
  session : Option Session
  isLoading : Bool
  isSending : Bool
  sendStartedAt : Option Nat
  error : Option String
  currentVisualization : Option VizSpec
  currentQueryResult : Option QueryView
  visualizationTabs : List ChartTab
  activeVizTabIndex : Option Nat
  activeDataView : DataView
deriving DecidableEq, Repr

/-- JavaScript `s || d` for strings: the empty string is falsy. -/
def jsOrString (s d : String) : String :=
  if s = "" then d else s

/-- JavaScript `xs && xs.length > 0 ? xs : undefined` for an optional array. -/
def nonEmptyOrNone (xs : Option (List α)) : Option (List α) :=
  match xs with
  | some l => if l.length > 0 then some l else none
  | none => none

/-- Chart tabs built from a response / message id and its chart list: tab `i`
is `{ id: mid-chart-i, title: chart.title || Chart i+1, vizType: "chart",
spec: chart }`.  The identical construction appears twice in the store file
(in `sendMessage` and in `buildVizTabs`). -/
def chartTabsFrom (mid : String) (i : Nat) : List VizSpec → List ChartTab
  | [] => []
  | c :: rest =>
    { id := mid ++ "-chart-" ++ toString i,
      title := jsOrString c.title ("Chart " ++ toString (i + 1)),
      vizType := "chart",
      spec := c } :: chartTabsFrom mid (i + 1) rest

/-- Graph tabs, mirroring `chartTabsFrom` with `-graph-` ids and `Graph`
default titles. -/
def graphTabsFrom (mid : String) (i : Nat) : List VizSpec → List ChartTab
  | [] => []
  | g :: rest =>
    { id := mid ++ "-graph-" ++ toString i,
      title := jsOrString g.title ("Graph " ++ toString (i + 1)),
      vizType := "graph",
      spec := g } :: graphTabsFrom mid (i + 1) rest

/-- Optional-chaining `xs?.forEach(push tab)`: an absent list contributes no
tabs. -/
def optTabs (f : List VizSpec → List ChartTab) : Option (List VizSpec) → List ChartTab
  | some cs => f cs
  | none => []

/-- The tabs one message contributes in `buildVizTabs`: only assistant
messages contribute, all their charts before all their graphs. -/
def vizTabsOfMessage (msg : Message) : List ChartTab :=
  if msg.role = Role.assistant then
    optTabs (chartTabsFrom msg.id 0) msg.charts ++
      optTabs (graphTabsFrom msg.id 0) msg.graphs
  else []

/-- `buildVizTabs` from the workspace store: walk the messages in order,
pushing each assistant message's chart tabs then graph tabs. -/
def buildVizTabs : List Message → List ChartTab
  | [] => []
  | m :: rest => vizTabsOfMessage m ++ buildVizTabs rest

/-- `{ data: last.data, columns: last.columns }` for the last element of a
query-result list. -/
def lastQueryView (qs : List QueryResult) : Option QueryView :=
  (qs.getLast?).map (fun q => { data := q.data, columns := q.columns })

/-- The scanning loop of `findLastQueryResult`, which walks `i` from
`messages.length - 1` down to `0`; here it receives the reversed list. -/
def findLastFrom : List Message → Option QueryView
  | [] => none
  | m :: rest =>
    if m.role = Role.assistant then
      match m.queryResults with
      | some qs => if qs.length > 0 then lastQueryView qs else findLastFrom rest
      | none => findLastFrom rest
    else findLastFrom rest

/-- `findLastQueryResult` from the workspace store. -/
def findLastQueryResult (messages : List Message) : Option QueryView :=
  findLastFrom messages.reverse

/-- `loadSession` of the workspace store, with the awaited
`api.getSession` call passed in as an `Except` outcome. -/
def loadSession (st : WorkspaceState) (fetched : Except String Session) :
    WorkspaceState :=
  match fetched with
  | Except.ok session =>
    let tabs := buildVizTabs session.messages
    let lastQueryResult := findLastQueryResult session.messages
    { st with
      session := some session,
      isLoading := false,
      error := none,
      visualizationTabs := tabs,
      activeVizTabIndex := if tabs.length > 0 then some (tabs.length - 1) else none,
      currentVisualization :=
        if tabs.length > 0 then (tabs.getLast?).map (fun t => t.spec) else none,
      currentQueryResult := lastQueryResult }
  | Except.error e =>
    { st with isLoading := false, error := some e }

/-- The optimistic placeholder user message of `sendMessage`
(`id = temp-Date.now()`). -/
def tempUserMessage (content : String) (nowMs : Nat) (now : String) : Message :=
  { id := "temp-" ++ toString nowMs,
    role := Role.user,
    content := content,
    timestamp := now }

/-- The server-correlated user message of the `sendMessage` success path
(`id = user-response.messageId`). -/
def successUserMessage (content : String) (messageId : String) (now : String) :
    Message :=
  { id := "user-" ++ messageId,
    role := Role.user,
    content := content,
    timestamp := now }

/-- `response.visualizations.filter(v => v.type !== "network")`. -/
def responseCharts (r : ChatResponse) : List VizSpec :=
  r.visualizations.filter (fun v => v.vtype != "network")

/-- `response.visualizations.filter(v => v.type === "network")`. -/
def responseGraphs (r : ChatResponse) : List VizSpec :=
  r.visualizations.filter (fun v => v.vtype == "network")

/-- The assistant message constructed on the `sendMessage` success path. -/
def assistantMessageOf (r : ChatResponse) (now : String) : Message :=
  let charts := responseCharts r
  let graphs := responseGraphs r
  { id := r.messageId,
    role := Role.assistant,
    content := r.response,
    timestamp := now,
    charts := if charts.length > 0 then some charts else none,
    graphs := if graphs.length > 0 then some graphs else none,
    toolCalls := if r.toolCalls.length > 0 then some r.toolCalls else none,
    queryResults := nonEmptyOrNone r.queryResults,
    tokenUsage := r.tokenUsage }

/-- The persistent error chat bubble of the `sendMessage` failure path
(`id = error-Date.now()`, `isError: true`). -/
def errorChatMessage (errorMessage : String) (nowMs : Nat) (now : String) :
    Message :=
  { id := "error-" ++ toString nowMs,
    role := Role.assistant,
    content := errorMessage,
    timestamp := now,
    isError := some true }

/-- `sendMessage` of the workspace store.  The awaited `api.sendMessage` call
is passed in as an `Except` outcome (`Except.error` = the call threw, with the
extracted error message).  `tempMs` and `errMs` are the two `Date.now()`
reads that mint the placeholder id and the error-message id; `now` is the ISO
timestamp.  Both the success and the failure `set` spread the `session`
captured before the optimistic insert, exactly as in the source. -/
def sendMessage (st : WorkspaceState) (content : String) (tempMs errMs : Nat)
    (now : String) (outcome : Except String ChatResponse) : WorkspaceState :=
  match st.session with
  | none => st
  | some session =>
    let temp := tempUserMessage content tempMs now
    match outcome with
    | Except.ok r =>
      let charts := responseCharts r
      let graphs := responseGraphs r
      let userMessage := successUserMessage content r.messageId now
      let assistantMessage := assistantMessageOf r now
      let newChartTabs := chartTabsFrom r.messageId 0 charts
      let newGraphTabs := graphTabsFrom r.messageId 0 graphs
      let updatedTabs := st.visualizationTabs ++ newChartTabs ++ newGraphTabs
      let newActiveIndex :=
        if updatedTabs.length > 0 then some (updatedTabs.length - 1) else none
      let newQueryResult :=
        match nonEmptyOrNone r.queryResults with
        | some qs => lastQueryView qs
        | none => st.currentQueryResult
      { st with
        session := some
          { session with
            messages :=
              session.messages.filter (fun m => m.id != temp.id) ++
                [userMessage, assistantMessage] },
        isSending := false,
        sendStartedAt := none,
        error := none,
        visualizationTabs := updatedTabs,
        activeVizTabIndex := newActiveIndex,
        currentVisualization :=
          match newActiveIndex with
          | some i =>
            match updatedTabs[i]? with
            | some t => some t.spec
            | none => st.currentVisualization
          | none => st.currentVisualization,
        currentQueryResult := newQueryResult,
        activeDataView :=
          match newQueryResult with
          | some _ => DataView.query
          | none => st.activeDataView }
    | Except.error errorMessage =>
      { st with
        isSending := false,
        sendStartedAt := none,
        error := some errorMessage,
        session := some
          { session with
            messages :=
              session.messages ++ [temp, errorChatMessage errorMessage errMs now] } }

/-- An upper bound on `(l.dropWhile p).length`, needed for the termination of
`groupMessages`. -/
theorem dropWhile_length_le (p : α → Bool) : ∀ l : List α,
    (l.dropWhile p).length ≤ l.length
  | [] => Nat.le_refl _
  | a :: l => by
    simp only [List.dropWhile]
    split
    · exact Nat.le_succ_of_le (dropWhile_length_le p l)
    · exact Nat.le_refl _

/-- One entry of the list returned by `groupMessages` in `ChatPanel.tsx`:
either a single non-system message or a run of consecutive system messages. -/
inductive MsgGroup
  | message (m : Message)
  | system (ms : List Message)
deriving DecidableEq, Repr

/-- `groupMessages` from `ChatPanel.tsx`: scan the messages; at a system
message collect the whole consecutive run of system messages into one group,
otherwise emit a singleton group and move on. -/
def groupMessages (ms : List Message) : List MsgGroup :=
  match ms with
  | [] => []
  | m :: rest =>
    if m.role = Role.system then
      MsgGroup.system (m :: rest.takeWhile (fun x => x.role == Role.system)) ::
        groupMessages (rest.dropWhile (fun x => x.role == Role.system))
    else
      MsgGroup.message m :: groupMessages rest
termination_by ms.length
decreasing_by
  · exact Nat.lt_succ_of_le (dropWhile_length_le _ rest)
  · exact Nat.lt_succ_of_le (Nat.le_refl _)

/-- Flatten a group list back into the underlying message list. -/
def flattenGroups : List MsgGroup → List Message
  | [] => []
  | MsgGroup.message m :: gs => m :: flattenGroups gs
  | MsgGroup.system ms :: gs => ms ++ flattenGroups gs

/-- Whether a group is a system group. -/
def isSystemGroup : MsgGroup → Bool
  | MsgGroup.system _ => true
  | MsgGroup.message _ => false

/-- No two adjacent entries of the group list are both system groups. -/
def noAdjacentSystemGroups : List MsgGroup → Bool
  | MsgGroup.system _ :: MsgGroup.system _ :: _ => false
  | _ :: gs => noAdjacentSystemGroups gs
  | [] => true

/-- The raw HTTP response observed by the chat client `sendMessage` in
`api.ts`: the `ok` flag and the parsed JSON body, read as a `ChatResponse`
when `ok` and for its optional `error` field when not `ok`. -/
structure HttpChatResponse where
  ok : Bool
  body : ChatResponse
  errorField : Option String
deriving DecidableEq, Repr

/-- JavaScript `x || d` for an optional string: `undefined` and `""` are both
falsy. -/
def jsOrOptString (x : Option String) (d : String) : String :=
  match x with
  | some s => jsOrString s d
  | none => d

/-- The chat client `sendMessage` of `api.ts` (named `apiSendMessage` here to
keep it apart from the store action): return the parsed `ChatResponse` when
`response.ok`, otherwise throw `Error(error.error || "Failed to send
message")`. -/
def apiSendMessage (resp : HttpChatResponse) : Except String ChatResponse :=
  if resp.ok then Except.ok resp.body
  else Except.error (jsOrOptString resp.errorField "Failed to send message")

/-- A graph node (`{ id, label }` in `GraphSpec`). -/
structure GraphNode where
  id : String
  label : String
deriving DecidableEq, Repr

/-- A graph edge (`{ source, target }` in `GraphSpec`). -/
structure GraphEdge where
  source : String
  target : String
deriving DecidableEq, Repr

/-- The node cap of `create_graph`. -/
def maxGraphNodes : Nat := 200

/-- The artifact produced by a successful `create_graph` call. -/
structure GraphResult where
  title : String
  nodes : List GraphNode
  edges : List GraphEdge
deriving DecidableEq, Repr

/-- Modelled from the spec: the `create_graph` tool executor is not under
`src/` (only the agent system prompt and the spec reference it).  Per the
spec the tool "enforces ≤200 nodes; rejects (does not silently truncate)
oversized requests". -/
def create_graph (nodes : List GraphNode) (edges : List GraphEdge)
    (title : String) : Except String GraphResult :=
  if nodes.length > maxGraphNodes then
    Except.error ("create_graph: " ++ toString nodes.length ++
      " nodes exceeds the 200-node limit; narrow the selection before plotting")
  else
    Except.ok { title := title, nodes := nodes, edges := edges }

/-- One aggregated category row of a chart request. -/
structure ChartRow where
  category : String
  value : Int
deriving DecidableEq, Repr

/-- The result of `create_chart`: the emitted rows and whether the category
list was truncated into an "other" bucket. -/
structure ChartResult where
  rows : List ChartRow
  truncated : Bool
deriving DecidableEq, Repr

/-- The default `top_n` of `create_chart`. -/
def defaultTopN : Nat := 10

/-- The maximal `top_n` of `create_chart`. -/
def maxTopN : Nat := 20

/-- Modelled from the spec: the `create_chart` tool executor is not under
`src/` (only the agent system prompt and the spec reference it).  Per the
spec it "caps category cardinality (default top 10, max 20) with 'other'
bucketing" and "must report in the result whether truncation occurred"; the
cap keeps the `top_n` highest-valued categories and aggregates the tail into
one "other" row. -/
def create_chart (data : List ChartRow) (topN : Nat) : ChartResult :=
  let n := min topN maxTopN
  let sorted := data.mergeSort (fun a b => decide (b.value ≤ a.value))
  if sorted.length ≤ n then
    { rows := sorted, truncated := false }
  else
    { rows := sorted.take n ++
        [{ category := "other",
           value := ((sorted.drop n).map (fun r => r.value)).foldl
             (fun a b => a + b) 0 }],
      truncated := true }

/-- Sample visualization used by the concrete witnesses. -/
def vizEx : VizSpec :=
  { vtype := "bar", title := "Top tags", payload := "rows" }

/-- Sample network visualization used by the concrete witnesses. -/
def vizNetEx : VizSpec :=
  { vtype := "network", title := "Collab graph", payload := "nodes" }

/-- Sample tool call used by the concrete witnesses. -/
def toolCallEx : ToolCall :=
  { tool := "run_sql", input := "select 1", durationMs := some 12,
    error := none, output := some "1 row" }

/-- Sample query result used by the concrete witnesses. -/
def queryResultEx : QueryResult :=
  { data := ["row1"], columns := ["c1"], row_count := 1 }

/-- Sample user message used by the concrete witnesses. -/
def msgUserEx : Message :=
  { id := "m0", role := Role.user, content := "hello", timestamp := "t0" }

/-- Sample assistant message used by the concrete witnesses. -/
def msgAssistantEx : Message :=
  { id := "a0", role := Role.assistant, content := "hi", timestamp := "t1",
    charts := some [vizEx] }

/-- Sample session used by the concrete witnesses. -/
def sessionEx : Session :=
  { id := "s1", name := "demo", messages := [msgUserEx, msgAssistantEx] }

/-- Sample workspace state used by the concrete witnesses. -/
def stateEx : WorkspaceState :=
  { session := some sessionEx,
    isLoading := false,
    isSending := false,
    sendStartedAt := none,
    error := none,
    currentVisualization := none,
    currentQueryResult := none,
    visualizationTabs := buildVizTabs sessionEx.messages,
    activeVizTabIndex := none,
    activeDataView := DataView.preview }

/-- Sample chat response used by the concrete witnesses. -/
def chatResponseEx : ChatResponse :=
  { messageId := "srv1", response := "done",
    visualizations := [vizEx, vizNetEx], model := none,
    toolCalls := [toolCallEx], queryResults := some [queryResultEx],
    tokenUsage := none }

/-- C1: when the chat request throws, `sendMessage` leaves the session with
the user's original message still present and appends exactly one assistant
message flagged `isError = true` carrying the error text; every previously
present message is kept unchanged, in order. -/
theorem sendMessage_failure_preserves_input (st : WorkspaceState) (s : Session)
    (content : String) (tempMs errMs : Nat) (now e : String)
    (hs : st.session = some s) :
    (sendMessage st content tempMs errMs now (Except.error e)).session =
      some { s with messages :=
        s.messages ++ [tempUserMessage content tempMs now,
                       errorChatMessage e errMs now] }
    ∧ (tempUserMessage content tempMs now).role = Role.user
    ∧ (tempUserMessage content tempMs now).content = content
    ∧ (errorChatMessage e errMs now).role = Role.assistant
    ∧ (errorChatMessage e errMs now).isError = some true
    ∧ (errorChatMessage e errMs now).content = e := by
  refine ⟨?_, rfl, rfl, rfl, rfl, rfl⟩
  simp [sendMessage, hs]

/-- Witness for C1 at a concrete state and error. -/
theorem sendMessage_failure_preserves_input_witness :
    (sendMessage stateEx "question" 7 8 "t2" (Except.error "boom")).session =
      some { sessionEx with messages :=
        sessionEx.messages ++ [tempUserMessage "question" 7 "t2",
                               errorChatMessage "boom" 8 "t2"] } :=
  (sendMessage_failure_preserves_input stateEx sessionEx "question" 7 8 "t2"
    "boom" rfl).1

/-- C2: on a successful turn the assistant message appended by `sendMessage`
is the last message of the session, and when the response's tool-call list is
non-empty, its `toolCalls` field is exactly `response.toolCalls`, in order. -/
theorem sendMessage_toolCalls_exact (st : WorkspaceState) (s : Session)
    (content : String) (tempMs errMs : Nat) (now : String) (r : ChatResponse)
    (hs : st.session = some s) (htc : r.toolCalls ≠ []) :
    ((sendMessage st content tempMs errMs now (Except.ok r)).session.map
        Session.messages).bind List.getLast? = some (assistantMessageOf r now)
    ∧ (assistantMessageOf r now).toolCalls = some r.toolCalls := by
  constructor
  · simp [sendMessage, hs]
  · simp [assistantMessageOf, List.length_pos.mpr htc]

/-- Witness for C2 at a concrete state and response. -/
theorem sendMessage_toolCalls_exact_witness :
    ((sendMessage stateEx "q" 7 8 "t2" (Except.ok chatResponseEx)).session.map
        Session.messages).bind List.getLast? =
      some (assistantMessageOf chatResponseEx "t2")
    ∧ (assistantMessageOf chatResponseEx "t2").toolCalls =
        some chatResponseEx.toolCalls :=
  sendMessage_toolCalls_exact stateEx sessionEx "q" 7 8 "t2" chatResponseEx rfl
    (by decide)

/-- C3: whatever the outcome, `sendMessage` only appends: provided the fresh
placeholder id collides with no existing message id, the final message list
is the old list, unchanged and in order, with new messages only at the end. -/
theorem sendMessage_append_only (st : WorkspaceState) (s : Session)
    (content : String) (tempMs errMs : Nat) (now : String)
    (outcome : Except String ChatResponse) (hs : st.session = some s)
    (hfresh : ∀ m ∈ s.messages,
      m.id ≠ (tempUserMessage content tempMs now).id) :
    ∃ tail, (sendMessage st content tempMs errMs now outcome).session.map
        Session.messages = some (s.messages ++ tail) := by
  cases outcome with
  | error e =>
    exact ⟨[tempUserMessage content tempMs now, errorChatMessage e errMs now],
      by simp [sendMessage, hs]⟩
  | ok r =>
    refine ⟨[successUserMessage content r.messageId now,
             assistantMessageOf r now], ?_⟩
    have hfilter : s.messages.filter
        (fun m => m.id != (tempUserMessage content tempMs now).id) =
        s.messages :=
      List.filter_eq_self.mpr (fun m hm => by simpa using hfresh m hm)
    simp only [sendMessage, hs]
    simp [hfilter]

/-- Witness for C3 at a concrete state and successful response. -/
theorem sendMessage_append_only_witness :
    ∃ tail, (sendMessage stateEx "q" 7 8 "t2"
        (Except.ok chatResponseEx)).session.map Session.messages =
      some (sessionEx.messages ++ tail) :=
  sendMessage_append_only stateEx sessionEx "q" 7 8 "t2"
    (Except.ok chatResponseEx) rfl (by decide)

/-- A `user-`-prefixed id never equals a `temp-`-prefixed id. -/
theorem user_id_ne_temp_id (a b : String) : ("user-" ++ a) ≠ ("temp-" ++ b) := by
  intro h
  have h2 : ("user-" ++ a).data = ("temp-" ++ b).data := congrArg String.data h
  rw [String.data_append, String.data_append] at h2
  have h3 : "user-".data = ['u', 's', 'e', 'r', '-'] := rfl
  have h4 : "temp-".data = ['t', 'e', 'm', 'p', '-'] := rfl
  rw [h3, h4] at h2
  simp at h2

/-- C7: on a successful turn the optimistic placeholder (id `temp-<ms>`) is
removed: the final message list is the old list with the placeholder id
filtered out, followed by the server-correlated user message
(`user-<messageId>`) immediately followed by the assistant message, and no
remaining message carries the temporary id. -/
theorem sendMessage_success_supersedes_placeholder (st : WorkspaceState)
    (s : Session) (content : String) (tempMs errMs : Nat) (now : String)
    (r : ChatResponse) (hs : st.session = some s)
    (hid : r.messageId ≠ "temp-" ++ toString tempMs) :
    (tempUserMessage content tempMs now).id = "temp-" ++ toString tempMs
    ∧ ((sendMessage st content tempMs errMs now (Except.ok r)).session.map
        Session.messages) = some
          (s.messages.filter (fun m => m.id != "temp-" ++ toString tempMs) ++
            [successUserMessage content r.messageId now,
             assistantMessageOf r now])
    ∧ (successUserMessage content r.messageId now).id = "user-" ++ r.messageId
    ∧ (assistantMessageOf r now).id = r.messageId
    ∧ ∀ m ∈ ((sendMessage st content tempMs errMs now
          (Except.ok r)).session.map Session.messages).getD [],
        m.id ≠ "temp-" ++ toString tempMs := by
  refine ⟨rfl, ?_, rfl, rfl, ?_⟩
  · simp [sendMessage, hs, tempUserMessage]
  · intro m hm
    simp only [sendMessage, hs, Option.map_some, Option.getD_some] at hm
    rcases List.mem_append.mp hm with hm | hm
    · have := List.of_mem_filter hm
      simpa [tempUserMessage] using this
    · simp only [List.mem_cons, List.mem_singleton] at hm
      rcases hm with hm | hm | hm
      · rw [hm]
        exact user_id_ne_temp_id r.messageId (toString tempMs)
      · rw [hm]
        exact hid
      · cases hm

/-- Witness for C7 at a concrete state and response. -/
theorem sendMessage_success_supersedes_placeholder_witness :
    ((sendMessage stateEx "q" 7 8 "t2" (Except.ok chatResponseEx)).session.map
        Session.messages) = some
      (sessionEx.messages.filter (fun m => m.id != "temp-" ++ toString 7) ++
        [successUserMessage "q" chatResponseEx.messageId "t2",
         assistantMessageOf chatResponseEx "t2"]) :=
  (sendMessage_success_supersedes_placeholder stateEx sessionEx "q" 7 8 "t2"
    chatResponseEx rfl (by decide)).2.1

/-- `buildVizTabs` distributes over list append. -/
theorem buildVizTabs_append (xs ys : List Message) :
    buildVizTabs (xs ++ ys) = buildVizTabs xs ++ buildVizTabs ys := by
  induction xs with
  | nil => rfl
  | cons m rest ih => simp [buildVizTabs, ih]

/-- The `length > 0` guard on an attached visualization list is invisible to
tab building, because an empty list yields no tabs anyway. -/
theorem optTabs_lengthGuard (f : List VizSpec → List ChartTab) (hf : f [] = [])
    (l : List VizSpec) :
    optTabs f (if l.length > 0 then some l else none) = f l := by
  by_cases h : l.length > 0
  · simp [optTabs, h]
  · have hl : l = [] := List.length_eq_zero.mp (by omega)
    subst hl
    simp [optTabs, hf]

/-- The tabs `buildVizTabs` derives from the assistant message of a response
are exactly the chart tabs then graph tabs `sendMessage` builds from that
response. -/
theorem vizTabs_assistantMessageOf (r : ChatResponse) (now : String) :
    vizTabsOfMessage (assistantMessageOf r now) =
      chartTabsFrom r.messageId 0 (responseCharts r) ++
        graphTabsFrom r.messageId 0 (responseGraphs r) := by
  simp only [vizTabsOfMessage, assistantMessageOf]
  rw [optTabs_lengthGuard _ rfl, optTabs_lengthGuard _ rfl]
  simp

/-- A non-assistant message contributes no visualization tabs. -/
theorem vizTabs_successUserMessage (content mid now : String) :
    vizTabsOfMessage (successUserMessage content mid now) = [] := by
  simp [vizTabsOfMessage, successUserMessage]

/-- C8: if the store's tab list agrees with `buildVizTabs` of the session's
messages before a turn, then after a successful `sendMessage` the
incrementally updated tab list again equals `buildVizTabs` of the updated
message list; and `loadSession` rebuilds exactly that list, so reloading a
session reconstructs the tabs built during live use. -/
theorem sendMessage_tabs_refinement (st : WorkspaceState) (s : Session)
    (content : String) (tempMs errMs : Nat) (now : String) (r : ChatResponse)
    (hs : st.session = some s)
    (htabs : st.visualizationTabs = buildVizTabs s.messages)
    (hfresh : ∀ m ∈ s.messages,
      m.id ≠ (tempUserMessage content tempMs now).id) :
    (sendMessage st content tempMs errMs now (Except.ok r)).visualizationTabs =
      buildVizTabs (((sendMessage st content tempMs errMs now
        (Except.ok r)).session.map Session.messages).getD [])
    ∧ ∀ (st2 : WorkspaceState) (sess : Session),
        (loadSession st2 (Except.ok sess)).visualizationTabs =
          buildVizTabs sess.messages := by
  constructor
  · have hfilter : s.messages.filter
        (fun m => m.id != (tempUserMessage content tempMs now).id) =
        s.messages :=
      List.filter_eq_self.mpr (fun m hm => by simpa using hfresh m hm)
    simp only [sendMessage, hs]
    rw [hfilter, htabs]
    simp [buildVizTabs_append, buildVizTabs, vizTabs_assistantMessageOf,
      vizTabs_successUserMessage]
  · intro st2 sess
    rfl

/-- Witness for C8 at a concrete state and response. -/
theorem sendMessage_tabs_refinement_witness :
    (sendMessage stateEx "q" 7 8 "t2"
        (Except.ok chatResponseEx)).visualizationTabs =
      buildVizTabs (((sendMessage stateEx "q" 7 8 "t2"
        (Except.ok chatResponseEx)).session.map Session.messages).getD []) :=
  (sendMessage_tabs_refinement stateEx sessionEx "q" 7 8 "t2" chatResponseEx
    rfl rfl (by decide)).1

/-- The loop condition of `findLastQueryResult`:
`msg.role === "assistant" && msg.queryResults && msg.queryResults.length > 0`. -/
def hasQueryResults (m : Message) : Bool :=
  (m.role == Role.assistant) &&
    (match m.queryResults with
     | some qs => decide (qs.length > 0)
     | none => false)

/-- A qualifying message makes the scan stop with its last query result. -/
theorem findLastFrom_cons_pos (m : Message) (rest : List Message)
    (qs : List QueryResult) (hrole : m.role = Role.assistant)
    (hq : m.queryResults = some qs) (hlen : qs.length > 0) :
    findLastFrom (m :: rest) = lastQueryView qs := by
  simp [findLastFrom, hrole, hq, hlen]

/-- A non-qualifying message is skipped by the scan. -/
theorem findLastFrom_cons_neg (m : Message) (rest : List Message)
    (hm : hasQueryResults m = false) :
    findLastFrom (m :: rest) = findLastFrom rest := by
  unfold hasQueryResults at hm
  by_cases hrole : m.role = Role.assistant
  · cases hq : m.queryResults with
    | none => simp [findLastFrom, hrole, hq]
    | some qs =>
      rw [hq] at hm
      simp only [hrole] at hm
      simp at hm
      simp [findLastFrom, hrole, hq, hm]
  · simp [findLastFrom, hrole]

/-- Unpack a true loop condition. -/
theorem hasQueryResults_true_elim (m : Message)
    (hm : hasQueryResults m = true) :
    ∃ qs, m.role = Role.assistant ∧ m.queryResults = some qs ∧
      qs.length > 0 := by
  unfold hasQueryResults at hm
  rw [Bool.and_eq_true] at hm
  obtain ⟨h1, h2⟩ := hm
  have hrole : m.role = Role.assistant := by simpa using h1
  cases hq : m.queryResults with
  | none => rw [hq] at h2; cases h2
  | some qs =>
    rw [hq] at h2
    exact ⟨qs, hrole, rfl, of_decide_eq_true h2⟩

/-- A non-empty query-result list has a last view. -/
theorem lastQueryView_isSome (qs : List QueryResult) (h : qs.length > 0) :
    ∃ v, lastQueryView qs = some v := by
  unfold lastQueryView
  cases hl : qs.getLast? with
  | none =>
    exact absurd (List.getLast?_eq_none_iff.mp hl) (List.ne_nil_of_length_pos h)
  | some q => exact ⟨{ data := q.data, columns := q.columns }, rfl⟩

/-- The scan returns `none` exactly when no scanned message qualifies. -/
theorem findLastFrom_eq_none_iff (l : List Message) :
    findLastFrom l = none ↔ ∀ m ∈ l, hasQueryResults m = false := by
  induction l with
  | nil => simp [findLastFrom]
  | cons m rest ih =>
    by_cases hm : hasQueryResults m = true
    · obtain ⟨qs, hrole, hq, hlen⟩ := hasQueryResults_true_elim m hm
      obtain ⟨v, hv⟩ := lastQueryView_isSome qs hlen
      rw [findLastFrom_cons_pos m rest qs hrole hq hlen, hv]
      constructor
      · intro h; exact absurd h (by simp)
      · intro h; exact absurd (h m (List.mem_cons_self m rest)) (by simp [hm])
    · have hm2 : hasQueryResults m = false := by
        cases h2 : hasQueryResults m
        · rfl
        · exact absurd h2 hm
      rw [findLastFrom_cons_neg m rest hm2, ih]
      constructor
      · intro h m2 hmem
        rcases List.mem_cons.mp hmem with h3 | h3
        · rw [h3]; exact hm2
        · exact h m2 h3
      · intro h m2 hmem; exact h m2 (List.mem_cons_of_mem m hmem)

/-- Skipping a non-qualifying block of scanned messages. -/
theorem findLastFrom_append_of_none (as bs : List Message)
    (h : ∀ m ∈ as, hasQueryResults m = false) :
    findLastFrom (as ++ bs) = findLastFrom bs := by
  induction as with
  | nil => rfl
  | cons m rest ih =>
    rw [List.cons_append,
      findLastFrom_cons_neg _ _ (h m (List.mem_cons_self m rest))]
    exact ih (fun m2 hm2 => h m2 (List.mem_cons_of_mem m hm2))

/-- The loop condition, phrased as the spec phrases it: an assistant message
carrying a non-empty `queryResults`. -/
theorem hasQueryResults_eq_false_iff (m : Message) :
    hasQueryResults m = false ↔
      ¬(m.role = Role.assistant ∧ m.queryResults ≠ none ∧
        m.queryResults ≠ some []) := by
  unfold hasQueryResults
  by_cases hrole : m.role = Role.assistant
  · cases hq : m.queryResults with
    | none => simp [hrole, hq]
    | some qs =>
      cases qs with
      | nil => simp [hrole, hq]
      | cons q rest => simp [hrole, hq]
  · simp [hrole]

/-- C9: `findLastQueryResult` returns `none` exactly when no assistant
message carries a non-empty `queryResults`; on a list split around the most
recent qualifying assistant message it returns the data and columns of the
last element of that message's `queryResults`; and `loadSession` sets
`currentQueryResult` to this value. -/
theorem findLastQueryResult_spec (ms xs ys : List Message) (m : Message)
    (qs : List QueryResult) (st2 : WorkspaceState) (sess : Session) :
    (findLastQueryResult ms = none ↔ ∀ m2 ∈ ms,
      ¬(m2.role = Role.assistant ∧ m2.queryResults ≠ none ∧
        m2.queryResults ≠ some []))
    ∧ (m.role = Role.assistant → m.queryResults = some qs → qs ≠ [] →
        (∀ m2 ∈ ys, ¬(m2.role = Role.assistant ∧ m2.queryResults ≠ none ∧
          m2.queryResults ≠ some [])) →
        findLastQueryResult (xs ++ m :: ys) =
          (qs.getLast?).map (fun q => { data := q.data, columns := q.columns }))
    ∧ (loadSession st2 (Except.ok sess)).currentQueryResult =
        findLastQueryResult sess.messages := by
  refine ⟨?_, ?_, rfl⟩
  · unfold findLastQueryResult
    rw [findLastFrom_eq_none_iff]
    constructor
    · intro h m2 hmem
      exact (hasQueryResults_eq_false_iff m2).mp
        (h m2 (List.mem_reverse.mpr hmem))
    · intro h m2 hmem
      exact (hasQueryResults_eq_false_iff m2).mpr
        (h m2 (List.mem_reverse.mp hmem))
  · intro hrole hq hne hys
    unfold findLastQueryResult
    have hrev : (xs ++ m :: ys).reverse = ys.reverse ++ m :: xs.reverse := by
      simp
    rw [hrev, findLastFrom_append_of_none]
    · rw [findLastFrom_cons_pos m xs.reverse qs hrole hq
        (List.length_pos.mpr hne)]
      rfl
    · intro m2 hmem
      exact (hasQueryResults_eq_false_iff m2).mpr
        (hys m2 (List.mem_reverse.mp hmem))

/-- Sample assistant message with query results, for the C9 witness. -/
def msgQrEx : Message :=
  { id := "a1", role := Role.assistant, content := "result", timestamp := "t3",
    queryResults := some [queryResultEx] }

/-- Witness for C9 at a concrete message list split. -/
theorem findLastQueryResult_spec_witness :
    findLastQueryResult ([msgUserEx] ++ msgQrEx :: [msgUserEx]) =
      (([queryResultEx] : List QueryResult).getLast?).map
        (fun q => { data := q.data, columns := q.columns }) :=
  (findLastQueryResult_spec [] [msgUserEx] [msgUserEx] msgQrEx
    [queryResultEx] stateEx sessionEx).2.1 rfl rfl (by decide) (by decide)

/-- `groupMessages` on the empty list. -/
theorem groupMessages_nil : groupMessages [] = [] := by
  rw [groupMessages]

/-- `groupMessages` at a system-message head: one maximal run is grouped. -/
theorem groupMessages_cons_system (m : Message) (rest : List Message)
    (h : m.role = Role.system) :
    groupMessages (m :: rest) =
      MsgGroup.system (m :: rest.takeWhile (fun x => x.role == Role.system)) ::
        groupMessages (rest.dropWhile (fun x => x.role == Role.system)) := by
  rw [groupMessages]
  simp [h]

/-- `groupMessages` at a non-system head: a singleton group. -/
theorem groupMessages_cons_other (m : Message) (rest : List Message)
    (h : ¬ m.role = Role.system) :
    groupMessages (m :: rest) = MsgGroup.message m :: groupMessages rest := by
  rw [groupMessages]
  simp [h]

/-- Flattening the groups reproduces the message list exactly. -/
theorem flattenGroups_groupMessages (ms : List Message) :
    flattenGroups (groupMessages ms) = ms := by
  induction ms using groupMessages.induct with
  | case1 => rw [groupMessages_nil]; rfl
  | case2 m rest hrole ih =>
    rw [groupMessages_cons_system m rest hrole]
    show (m :: rest.takeWhile (fun x => x.role == Role.system)) ++
      flattenGroups (groupMessages
        (rest.dropWhile (fun x => x.role == Role.system))) = m :: rest
    rw [ih, List.cons_append, List.takeWhile_append_dropWhile]
  | case3 m rest hrole ih =>
    rw [groupMessages_cons_other m rest hrole]
    show m :: flattenGroups (groupMessages rest) = m :: rest
    rw [ih]

/-- Every system group emitted by `groupMessages` is non-empty and contains
only system messages. -/
theorem groupMessages_system_groups (ms : List Message) :
    ∀ g ∈ groupMessages ms, ∀ gs, g = MsgGroup.system gs →
      gs ≠ [] ∧ ∀ m2 ∈ gs, m2.role = Role.system := by
  induction ms using groupMessages.induct with
  | case1 =>
    rw [groupMessages_nil]
    intro g hg
    cases hg
  | case2 m rest hrole ih =>
    rw [groupMessages_cons_system m rest hrole]
    intro g hg gs hgs
    rcases List.mem_cons.mp hg with h | h
    · rw [h] at hgs
      injection hgs with hgs2
      rw [← hgs2]
      refine ⟨by simp, ?_⟩
      intro m2 hm2
      rcases List.mem_cons.mp hm2 with h2 | h2
      · rw [h2]; exact hrole
      · simpa using List.mem_takeWhile_imp h2
    · exact ih g h gs hgs
  | case3 m rest hrole ih =>
    rw [groupMessages_cons_other m rest hrole]
    intro g hg gs hgs
    rcases List.mem_cons.mp hg with h | h
    · rw [h] at hgs
      cases hgs
    · exact ih g h gs hgs

/-- The head of `l.dropWhile p` fails `p`. -/
theorem dropWhile_head_false (p : α → Bool) :
    ∀ (l : List α) (x : α) (xs : List α),
      l.dropWhile p = x :: xs → p x = false := by
  intro l
  induction l with
  | nil =>
    intro x xs h
    cases h
  | cons a rest ih =>
    intro x xs h
    rw [List.dropWhile_cons] at h
    by_cases hp : p a = true
    · rw [if_pos hp] at h
      exact ih x xs h
    · rw [if_neg hp] at h
      injection h with h1 h2
      rw [← h1]
      simpa using hp

/-- A group list headed by a singleton group satisfies the adjacency check
exactly when its tail does. -/
theorem noAdjacentSystemGroups_cons_message (m : Message) (gs : List MsgGroup) :
    noAdjacentSystemGroups (MsgGroup.message m :: gs) =
      noAdjacentSystemGroups gs := by
  cases gs with
  | nil => rfl
  | cons g gs2 => cases g <;> rfl

/-- A system group followed by a singleton group passes the local adjacency
check. -/
theorem noAdjacentSystemGroups_system_message (run : List Message)
    (m : Message) (gs : List MsgGroup) :
    noAdjacentSystemGroups
        (MsgGroup.system run :: MsgGroup.message m :: gs) =
      noAdjacentSystemGroups (MsgGroup.message m :: gs) := rfl

/-- `groupMessages` never emits two adjacent system groups: runs are
maximal. -/
theorem noAdjacentSystemGroups_groupMessages (ms : List Message) :
    noAdjacentSystemGroups (groupMessages ms) = true := by
  induction ms using groupMessages.induct with
  | case1 =>
    rw [groupMessages_nil]
    rfl
  | case2 m rest hrole ih =>
    rw [groupMessages_cons_system m rest hrole]
    cases h2 : rest.dropWhile (fun x => x.role == Role.system) with
    | nil =>
      rw [groupMessages_nil]
      rfl
    | cons m2 rest3 =>
      have hm2 : ¬ m2.role = Role.system := by
        have := dropWhile_head_false (fun x => x.role == Role.system)
          rest m2 rest3 h2
        simpa using this
      rw [h2] at ih
      rw [groupMessages_cons_other m2 rest3 hm2] at ih ⊢
      rw [noAdjacentSystemGroups_system_message]
      exact ih
  | case3 m rest hrole ih =>
    rw [groupMessages_cons_other m rest hrole,
      noAdjacentSystemGroups_cons_message]
    exact ih

/-- C10: `groupMessages` partitions the message list exactly: flattening the
groups yields the original list; every system group is non-empty and holds
only system messages; and no two adjacent groups are both system groups, so
system runs are maximal. -/
theorem groupMessages_partition (ms : List Message) :
    flattenGroups (groupMessages ms) = ms
    ∧ (∀ g ∈ groupMessages ms, ∀ gs, g = MsgGroup.system gs →
        gs ≠ [] ∧ ∀ m2 ∈ gs, m2.role = Role.system)
    ∧ noAdjacentSystemGroups (groupMessages ms) = true :=
  ⟨flattenGroups_groupMessages ms, groupMessages_system_groups ms,
    noAdjacentSystemGroups_groupMessages ms⟩

/-- Sample system message used by the C10 witness. -/
def msgSysEx : Message :=
  { id := "e0", role := Role.system, content := "dataset attached",
    timestamp := "t5" }

/-- Witness for C10 at a concrete message list with a system run. -/
theorem groupMessages_partition_witness :
    flattenGroups (groupMessages [msgSysEx, msgSysEx, msgUserEx, msgSysEx]) =
        [msgSysEx, msgSysEx, msgUserEx, msgSysEx]
    ∧ noAdjacentSystemGroups
        (groupMessages [msgSysEx, msgSysEx, msgUserEx, msgSysEx]) = true :=
  ⟨(groupMessages_partition [msgSysEx, msgSysEx, msgUserEx, msgSysEx]).1,
    (groupMessages_partition [msgSysEx, msgSysEx, msgUserEx, msgSysEx]).2.2⟩

/-- A non-ok transport response whose parsed body has an `error` field that
is present but empty. -/
def respEmptyErrEx : HttpChatResponse :=
  { ok := false, body := chatResponseEx, errorField := some "" }

/-- C6 counterexample: on a non-ok response whose `error` field is present
but empty, `apiSendMessage` throws the fallback text, not the (empty) error
field, so the thrown message is not the error field of the body even though
that field is present. -/
theorem apiSendMessage_empty_error_field :
    respEmptyErrEx.ok = false
    ∧ respEmptyErrEx.errorField = some ""
    ∧ apiSendMessage respEmptyErrEx ≠ Except.error ""
    ∧ apiSendMessage respEmptyErrEx = Except.error "Failed to send message" := by
  refine ⟨rfl, rfl, ?_, rfl⟩
  intro h
  rw [show apiSendMessage respEmptyErrEx =
    Except.error "Failed to send message" from rfl] at h
  exact absurd (Except.error.inj h) (by decide)

/-- C6 (amended): `apiSendMessage` returns the parsed `ChatResponse` exactly
when the response is ok; for a non-ok response it never returns a value, and
the thrown message is the body's `error` field whenever that field is present
and non-empty. -/
theorem apiSendMessage_spec (r : HttpChatResponse) (e : String) :
    (r.ok = true → apiSendMessage r = Except.ok r.body)
    ∧ (r.ok = false → ∀ b, apiSendMessage r ≠ Except.ok b)
    ∧ (r.ok = false → r.errorField = some e → e ≠ "" →
        apiSendMessage r = Except.error e) := by
  refine ⟨?_, ?_, ?_⟩
  · intro h
    simp [apiSendMessage, h]
  · intro h b
    simp [apiSendMessage, h]
  · intro h he hne
    simp [apiSendMessage, h, he, jsOrOptString, jsOrString, hne]

/-- A non-ok transport response with a non-empty `error` field. -/
def respErrEx : HttpChatResponse :=
  { ok := false, body := chatResponseEx, errorField := some "provider down" }

/-- Witness for C6 (amended) at a concrete non-ok response. -/
theorem apiSendMessage_spec_witness :
    apiSendMessage respErrEx = Except.error "provider down" :=
  (apiSendMessage_spec respErrEx "provider down").2.2 rfl rfl (by decide)

/-- C4: `create_graph` with 201 requested nodes is rejected with an error
(not silently truncated), and with exactly 200 nodes it succeeds, keeping
all requested nodes. -/
theorem create_graph_boundary (nodes1 nodes2 : List GraphNode)
    (edges : List GraphEdge) (title : String)
    (h1 : nodes1.length = 201) (h2 : nodes2.length = 200) :
    (∃ e, create_graph nodes1 edges title = Except.error e)
    ∧ ∃ g, create_graph nodes2 edges title = Except.ok g
        ∧ g.nodes = nodes2 := by
  constructor
  · have hgt : nodes1.length > maxGraphNodes := by
      rw [h1]
      decide
    exact ⟨"create_graph: " ++ toString nodes1.length ++
      " nodes exceeds the 200-node limit; narrow the selection before plotting",
      by simp [create_graph, hgt]⟩
  · have hle : ¬ nodes2.length > maxGraphNodes := by
      rw [h2]
      decide
    exact ⟨{ title := title, nodes := nodes2, edges := edges },
      by simp [create_graph, hle], rfl⟩

/-- Sample graph node used by the C4 witness. -/
def graphNodeEx : GraphNode := { id := "n1", label := "Node" }

/-- Witness for C4 at concrete 201- and 200-node requests. -/
theorem create_graph_boundary_witness :
    (∃ e, create_graph (List.replicate 201 graphNodeEx) [] "g" =
      Except.error e)
    ∧ ∃ g, create_graph (List.replicate 200 graphNodeEx) [] "g" =
        Except.ok g ∧ g.nodes = List.replicate 200 graphNodeEx :=
  create_graph_boundary (List.replicate 201 graphNodeEx)
    (List.replicate 200 graphNodeEx) [] "g"
    (List.length_replicate 201 graphNodeEx)
    (List.length_replicate 200 graphNodeEx)

/-- C5: `create_chart` on 25 distinct categories with the default
`top_n = 10` returns exactly 10 category rows (each drawn from the request)
plus one aggregate "other" row, and its result flags that truncation
occurred. -/
theorem create_chart_boundary (data : List ChartRow)
    (hlen : data.length = 25)
    (hdist : (data.map (fun r => r.category)).Nodup) :
    (create_chart data defaultTopN).rows.length = defaultTopN + 1
    ∧ (∃ v, (create_chart data defaultTopN).rows.getLast? =
        some { category := "other", value := v })
    ∧ (∀ r ∈ (create_chart data defaultTopN).rows.take defaultTopN, r ∈ data)
    ∧ (create_chart data defaultTopN).truncated = true := by
  set s := data.mergeSort (fun a b => decide (b.value ≤ a.value)) with hsdef
  have hsort : s.length = 25 := by
    rw [hsdef, List.length_mergeSort]
    exact hlen
  have hmin : min defaultTopN maxTopN = defaultTopN := rfl
  have hgt : ¬ (s.length ≤ defaultTopN) := by
    rw [hsort]
    decide
  set other : ChartRow :=
    { category := "other",
      value := ((s.drop defaultTopN).map (fun r => r.value)).foldl
        (fun a b => a + b) 0 } with hother
  have hout : create_chart data defaultTopN =
      { rows := s.take defaultTopN ++ [other], truncated := true } := by
    rw [hother]
    simp only [create_chart]
    rw [← hsdef, hmin, if_neg hgt]
  have htake : (s.take defaultTopN).length = defaultTopN := by
    rw [List.length_take, hsort]
    decide
  refine ⟨?_, ?_, ?_, ?_⟩
  · rw [hout]
    simp [htake]
  · rw [hout]
    refine ⟨other.value, ?_⟩
    have hg : (s.take defaultTopN ++ [other]).getLast? = some other := by simp
    exact hg
  · intro r hr
    rw [hout] at hr
    have hr2 : r ∈ (s.take defaultTopN ++ [other]).take defaultTopN := hr
    rw [List.take_append_of_le_length (le_of_eq htake.symm),
      List.take_take, Nat.min_self] at hr2
    exact List.mem_mergeSort.mp (hsdef ▸ List.mem_of_mem_take hr2)
  · rw [hout]

/-- 25 chart rows with pairwise distinct categories, for the C5 witness. -/
def chartDataEx : List ChartRow :=
  (List.range 25).map
    (fun i => { category := "cat" ++ toString i, value := (i : Int) })

/-- Witness for C5 at a concrete 25-category request. -/
theorem create_chart_boundary_witness :
    (create_chart chartDataEx defaultTopN).rows.length = defaultTopN + 1
    ∧ (∃ v, (create_chart chartDataEx defaultTopN).rows.getLast? =
        some { category := "other", value := v })
    ∧ (∀ r ∈ (create_chart chartDataEx defaultTopN).rows.take defaultTopN,
        r ∈ chartDataEx)
    ∧ (create_chart chartDataEx defaultTopN).truncated = true :=
  create_chart_boundary chartDataEx (by decide) (by decide)

end Orbital
